import Mathlib

/-!
Verification development for the `binance-async-api` Rust client.

The development shallowly embeds the request dispatch and authentication
pipeline (`src/rest/mod.rs`), the WebSocket stream decoder
(`src/websocket/mod.rs`), the WS-API signer (`src/ws_api/mod.rs`) and the
client configuration builders (`src/client.rs`).  External collaborator
crates (serde_qs / serde_json serialization, reqwest transport,
tokio-tungstenite sockets) are modelled at their interfaces: serializers
are taken as already-produced canonical strings or key/value field lists,
and the transport is modelled by passing the observed network outcome as
an explicit argument.  The `hmac`/`sha2` primitives are embedded as a
full executable HMAC-SHA256 over byte lists so that signature values can
be computed inside Lean.
-/

namespace Binance

/-! ### FIPS 180-4 SHA-256 over byte lists (embedding of the `sha2` crate) -/

namespace Crypto

/-- Truncation to a 32-bit word. -/
def u32 (x : Nat) : Nat := x % 4294967296

/-- Bitwise complement within 32 bits. -/
def compl32 (x : Nat) : Nat := x ^^^ 4294967295

/-- Right-rotation of a 32-bit word by `n` places. -/
def rotr (n x : Nat) : Nat := (x >>> n) ||| u32 (x <<< (32 - n))

/-- The `Ch` function of FIPS 180-4. -/
def ch (x y z : Nat) : Nat := (x &&& y) ^^^ (compl32 x &&& z)

/-- The `Maj` function of FIPS 180-4. -/
def maj (x y z : Nat) : Nat := (x &&& y) ^^^ (x &&& z) ^^^ (y &&& z)

/-- The `Σ₀` compression function. -/
def bigSigma0 (x : Nat) : Nat := rotr 2 x ^^^ rotr 13 x ^^^ rotr 22 x

/-- The `Σ₁` compression function. -/
def bigSigma1 (x : Nat) : Nat := rotr 6 x ^^^ rotr 11 x ^^^ rotr 25 x

/-- The `σ₀` message-schedule function. -/
def smallSigma0 (x : Nat) : Nat := rotr 7 x ^^^ rotr 18 x ^^^ (x >>> 3)

/-- The `σ₁` message-schedule function. -/
def smallSigma1 (x : Nat) : Nat := rotr 17 x ^^^ rotr 19 x ^^^ (x >>> 10)

/-- The 64 SHA-256 round constants. -/
def roundConsts : List Nat :=
  [1116352408, 1899447441, 3049323471, 3921009573, 961987163,
   1508970993, 2453635748, 2870763221, 3624381080, 310598401,
   607225278, 1426881987, 1925078388, 2162078206, 2614888103,
   3248222580, 3835390401, 4022224774, 264347078, 604807628,
   770255983, 1249150122, 1555081692, 1996064986, 2554220882,
   2821834349, 2952996808, 3210313671, 3336571891, 3584528711,
   113926993, 338241895, 666307205, 773529912, 1294757372,
   1396182291, 1695183700, 1986661051, 2177026350, 2456956037,
   2730485921, 2820302411, 3259730800, 3345764771, 3516065817,
   3600352804, 4094571909, 275423344, 430227734, 506948616,
   659060556, 883997877, 958139571, 1322822218, 1537002063,
   1747873779, 1955562222, 2024104815, 2227730452, 2361852424,
   2428436474, 2756734187, 3204031479, 3329325298]

/-- The working state of the compression loop (registers a–h). -/
structure Hs where
  a : Nat
  b : Nat
  c : Nat
  d : Nat
  e : Nat
  f : Nat
  g : Nat
  h : Nat
deriving Repr, DecidableEq

/-- The SHA-256 initial hash value. -/
def initHs : Hs :=
  ⟨1779033703, 3144134277, 1013904242, 2773480762,
   1359893119, 2600822924, 528734635, 1541459225⟩

/-- One compression round with round constant `kc` and schedule word `wt`. -/
def compressRound (kc wt : Nat) (s : Hs) : Hs :=
  let t1 := u32 (s.h + bigSigma1 s.e + ch s.e s.f s.g + kc + wt)
  let t2 := u32 (bigSigma0 s.a + maj s.a s.b s.c)
  ⟨u32 (t1 + t2), s.a, s.b, s.c, u32 (s.d + t1), s.e, s.f, s.g⟩

/-- Next message-schedule word from the sliding window `w` (oldest first). -/
def schedNext (w : List Nat) : Nat :=
  u32 (smallSigma1 (w.getD 14 0) + w.getD 9 0 + smallSigma0 (w.getD 1 0) + w.getD 0 0)

/-- Run `n` compression rounds, sliding the 16-word schedule window. -/
def rounds : Nat → List Nat → List Nat → Hs → Hs
  | 0, _, _, s => s
  | _ + 1, [], _, s => s
  | n + 1, kc :: ks, w, s =>
    rounds n ks (w.tail ++ [schedNext w]) (compressRound kc (w.headD 0) s)

/-- Process one 16-word block, adding the result into the running state. -/
def processBlock (s : Hs) (w16 : List Nat) : Hs :=
  let r := rounds 64 roundConsts w16 s
  ⟨u32 (s.a + r.a), u32 (s.b + r.b), u32 (s.c + r.c), u32 (s.d + r.d),
   u32 (s.e + r.e), u32 (s.f + r.f), u32 (s.g + r.g), u32 (s.h + r.h)⟩

/-- Fold all 16-word blocks of `ws` into the state (`fuel` bounds recursion). -/
def processBlocks : Nat → Hs → List Nat → Hs
  | _, s, [] => s
  | 0, s, _ => s
  | n + 1, s, ws => processBlocks n (processBlock s (ws.take 16)) (ws.drop 16)

/-- Big-endian byte rendering of `v` on `n` bytes. -/
def bytesBE : Nat → Nat → List Nat
  | 0, _ => []
  | n + 1, v => bytesBE n (v / 256) ++ [v % 256]

/-- Group bytes into big-endian 32-bit words. -/
def toWords : List Nat → List Nat
  | b0 :: b1 :: b2 :: b3 :: rest =>
    (b0 * 16777216 + b1 * 65536 + b2 * 256 + b3) :: toWords rest
  | _ => []

/-- SHA-256 padding: append `0x80`, zeros, and the 64-bit bit length. -/
def pad (msg : List Nat) : List Nat :=
  let len := msg.length
  let zeros := (55 + 64 - len % 64) % 64
  msg ++ [128] ++ List.replicate zeros 0 ++ bytesBE 8 (8 * len)

/-- The eight state registers as a word list. -/
def Hs.words (s : Hs) : List Nat := [s.a, s.b, s.c, s.d, s.e, s.f, s.g, s.h]

/-- SHA-256 digest (32 bytes) of a byte-list message. -/
def sha256 (msg : List Nat) : List Nat :=
  let ws := toWords (pad msg)
  let s := processBlocks ws.length initHs ws
  s.words.foldr (fun w acc => bytesBE 4 w ++ acc) []

/-- HMAC-SHA256 (RFC 2104) digest of `msg` under `key`, both byte lists. -/
def hmacSha256 (key msg : List Nat) : List Nat :=
  let k0 := if 64 < key.length then sha256 key else key
  let k1 := k0 ++ List.replicate (64 - k0.length) 0
  let ipadded := k1.map (fun b => b ^^^ 0x36)
  let opadded := k1.map (fun b => b ^^^ 0x5c)
  sha256 (opadded ++ sha256 (ipadded ++ msg))

/-- One lowercase hexadecimal digit. -/
def hexDigit (n : Nat) : Char :=
  if n < 10 then Char.ofNat (48 + n) else Char.ofNat (87 + n)

/-- Lowercase hex rendering of a byte list (the `hex::encode` collaborator). -/
def hexify (bs : List Nat) : String :=
  String.mk (bs.foldr (fun b acc => hexDigit (b / 16) :: hexDigit (b % 16) :: acc) [])

/-- Bytes of an ASCII string (agrees with Rust `str::as_bytes` on ASCII). -/
def strBytes (s : String) : List Nat := s.data.map Char.toNat

end Crypto

end Binance

namespace Binance

/-!
### Serialization collaborators

`serde_qs::to_string` and `serde_json` are external crates; per the spec
they are pure encoders.  A request value is modelled as its ordered list
of serialized fields.  `qsEncode` is the query-string join produced by
`serde_qs` for flat structs with URL-safe scalar values (the concrete
inputs in this file are alphanumeric, where percent-encoding is the
identity).
-/

/-- The serde_qs query-string encoding of an ordered field list. -/
def qsEncode (fields : List (String × String)) : String :=
  String.intercalate "&" (fields.map (fun kv => kv.1 ++ "=" ++ kv.2))

/-- A scalar JSON value as serde_json represents request fields. -/
inductive Json where
  | str (s : String)
  | num (n : Int)
deriving Repr, DecidableEq

/-- Compact serde_json rendering (`Display` of `serde_json::Value`):
strings keep their JSON quotes, numbers are bare decimals.  (Escape
sequences inside strings are not needed for the ASCII inputs used here.) -/
def Json.render : Json → String
  | .str s => "\"" ++ s ++ "\""
  | .num n => toString n

/-- serde_qs rendering of the same scalar: strings are bare, numbers
are decimals. -/
def Json.qsVal : Json → String
  | .str s => s
  | .num n => toString n

/-- The serde_qs encoding of a JSON-field request value. -/
def restEncode (req : List (String × Json)) : String :=
  qsEncode (req.map (fun p => (p.1, p.2.qsVal)))

/-! ### REST dispatch engine (`src/rest/mod.rs`) -/

/-- The error envelope body `\x7b code, msg \x7d` (`src/errors.rs`). -/
structure BinanceResponseError where
  code : Int
  msg : String
deriving Repr, DecidableEq

/-- `BinanceRequestError` from `src/rest/mod.rs`. -/
inductive BinanceRequestError where
  | invalidApiKey
  | binanceResponse (statusCode : Nat) (headers : List (String × String))
      (content : Option BinanceResponseError)
deriving Repr, DecidableEq

/-- `BinanceResponse` from `src/rest/mod.rs`: a decoded success value with
its transport metadata. -/
structure BinanceResponse (O : Type) where
  statusCode : Nat
  headers : List (String × String)
  content : O
deriving Repr, DecidableEq

/-- Outcome of the dispatch pipeline.  `panicked` marks the `panic!` /
`unwrap` paths of the source: the process aborts and nothing is returned. -/
inductive RestOutcome (O : Type) where
  | ok (resp : BinanceResponse O)
  | err (e : BinanceRequestError)
  | panicked
deriving Repr, DecidableEq

/-- The outbound HTTP exchange handed to the reqwest transport: the full
URL (including the query string), the headers, and the body. -/
structure OutboundRequest where
  url : String
  headers : List (String × String)
  body : Option String
deriving Repr, DecidableEq

/-- Validity test of `reqwest::header::HeaderValue::from_str`: every byte
is visible ASCII, space or horizontal tab. -/
def isValidHeaderValue (s : String) : Bool :=
  s.data.all (fun c => c.toNat == 9 || (32 ≤ c.toNat && c.toNat != 127))

/-- The constant `USER_AGENT` header inserted by every request builder. -/
def userAgentHeader : String × String := ("user-agent", "binance-async-api")

/-- `signature` from `src/rest/mod.rs` lines 161–166: the lowercase hex
HMAC-SHA256 digest of the literal `params` string under `secret`. -/
def restSignature (params secret : String) : String :=
  Crypto.hexify (Crypto.hmacSha256 (Crypto.strBytes secret) (Crypto.strBytes params))

/-- `BinanceClient::request` (lines 76–97): public tier.  Serializes the
request, builds `base ++ endpoint ++ "?" ++ params`, attaches only the
user-agent header, no body. -/
def publicRequest (base endpoint : String) (req : List (String × String)) :
    OutboundRequest :=
  let params := qsEncode req
  { url := base ++ endpoint ++ "?" ++ params
    headers := [userAgentHeader]
    body := none }

/-- `BinanceClient::keyed_request` (lines 99–125): key-only tier.  The API
key is a mandatory `&str` argument; the only pre-network failure is
`InvalidApiKey` when it is not a valid header value. -/
def keyedRequest (base endpoint : String) (req : List (String × String))
    (apiKey : String) : Except BinanceRequestError OutboundRequest :=
  let params := qsEncode req
  if isValidHeaderValue apiKey then
    .ok { url := base ++ endpoint ++ "?" ++ params
          headers := [userAgentHeader, ("x-mbx-apikey", apiKey)]
          body := none }
  else
    .error .invalidApiKey

/-- `BinanceClient::signed_request` (lines 127–158): signed tier.  Signs
the serde_qs encoding of the request as-is, appends
`&signature=<hex>` to the query string, sends no body.  Both credentials
are mandatory `&str` arguments. -/
def signedRequest (base endpoint : String) (req : List (String × String))
    (apiKey apiSecret : String) : Except BinanceRequestError OutboundRequest :=
  let params := qsEncode req
  let sig := restSignature params apiSecret
  let params2 := params ++ "&signature=" ++ sig
  if isValidHeaderValue apiKey then
    .ok { url := base ++ endpoint ++ "?" ++ params2
          headers := [userAgentHeader, ("x-mbx-apikey", apiKey)]
          body := none }
  else
    .error .invalidApiKey

/-- An HTTP response as the engine observes it: status, headers, and the
body text (`none` models `Response::text()` itself failing). -/
structure HttpResponse where
  status : Nat
  headers : List (String × String)
  body : Option String
deriving Repr, DecidableEq

/-- `StatusCode::is_success`: 2xx. -/
def isSuccessStatus (s : Nat) : Bool := 200 ≤ s && s < 300

/-- `handle_response` (lines 168–211), parameterized by the two serde
decoders it instantiates: `decodeO` is `from_str::<R::Response>` and
`decodeErr` is `from_str::<BinanceResponseError>`.  On a success status
the body is decoded as the success type only — decode failure and
`text()` failure hit `unwrap`/`panic!`.  On a failure status the body is
decoded as the error envelope; decode failure hits `panic!`, while a
`text()` failure yields an error with `content = none`. -/
def handleResponse {O : Type} (decodeO : String → Option O)
    (decodeErr : String → Option BinanceResponseError) (resp : HttpResponse) :
    RestOutcome O :=
  if isSuccessStatus resp.status then
    match resp.body with
    | some text =>
      match decodeO text with
      | some content => .ok { statusCode := resp.status, headers := resp.headers, content }
      | none => .panicked
    | none => .panicked
  else
    match resp.body with
    | some text =>
      match decodeErr text with
      | some content =>
        .err (.binanceResponse resp.status resp.headers (some content))
      | none => .panicked
    | none => .err (.binanceResponse resp.status resp.headers none)

end Binance

namespace Binance

/-! ### WebSocket stream decoder (`src/websocket/mod.rs`) -/

/-- `tungstenite::Message`, with the payloads the decoder discards. -/
inductive Message where
  | text (s : String)
  | binary (b : List Nat)
  | ping (b : List Nat)
  | pong (b : List Nat)
  | frameRaw
  | close
deriving Repr, DecidableEq

/-- One poll of the inner `WSStream`: a frame, a transport error, the end
of the inner stream, or not ready yet. -/
inductive InnerPoll where
  | item (m : Message)
  | failed
  | finished
  | notReady
deriving Repr, DecidableEq

/-- The observable result of one `poll_next` call on `BinanceWebsocket`.
`panicked` marks the `panic!` path on an undecodable text frame. -/
inductive PollOutcome (E : Type) where
  | ready (e : E)
  | terminated
  | pending
  | panicked
deriving Repr, DecidableEq

/-- `<BinanceWebsocket as Stream>::poll_next` (lines 57–83), parameterized
by the serde decoder `from_str::<E>`.  A transport error or inner end
returns `Ready(None)`; binary/ping/pong/raw frames are discarded and the
task is re-woken (`Pending`); a close frame returns `Ready(None)`; a text
frame is decoded, panicking on failure. -/
def pollNext {E : Type} (decode : String → Option E) : InnerPoll → PollOutcome E
  | .failed => .terminated
  | .finished => .terminated
  | .notReady => .pending
  | .item (.text s) =>
    match decode s with
    | some ev => .ready ev
    | none => .panicked
  | .item (.binary _) => .pending
  | .item .frameRaw => .pending
  | .item (.pong _) => .pending
  | .item (.ping _) => .pending
  | .item .close => .terminated

/-- How a pull-to-exhaustion run of the stream ends. -/
inductive Termination where
  | clean
  | panicked
deriving Repr, DecidableEq

/-- Drive `pollNext` over the whole inner frame sequence, as a caller
pulling until the stream ends: `pending` pulls again on the next inner
item, `ready` yields an event, `terminated` ends the run cleanly, and a
decode panic aborts it. -/
def runStream {E : Type} (decode : String → Option E) :
    List InnerPoll → List E × Termination
  | [] => ([], .clean)
  | f :: rest =>
    match pollNext decode f with
    | .ready e =>
      let r := runStream decode rest
      (e :: r.1, r.2)
    | .terminated => ([], .clean)
    | .panicked => ([], .panicked)
    | .pending => runStream decode rest

/-! ### Stream connection manager (`src/websocket/mod.rs` lines 86–111) -/

/-- The outcome of `tokio_tungstenite::connect_async`: an established
socket, an HTTP-level rejection (`tungstenite::Error::Http`) carrying the
response, or any other transport-level error. -/
inductive ConnectAsyncResult where
  | okStream
  | httpRejected (status : Nat) (headers : List (String × String)) (body : Option String)
  | otherError (description : String)
deriving Repr, DecidableEq

/-- `StartWebsocketError` from `src/websocket/mod.rs`. -/
structure StartWebsocketError where
  statusCode : Nat
  headers : List (String × String)
  body : String
deriving Repr, DecidableEq

/-- The observable result of `connect_stream`.  `ok` records the URL the
socket was opened on; `panicked` marks the `panic!` on any connect error
other than `Error::Http`. -/
inductive ConnectOutcome where
  | ok (url : String)
  | err (e : StartWebsocketError)
  | panicked
deriving Repr, DecidableEq

/-- `BinanceClient::connect_stream` (lines 86–111): builds
`base ++ topic.endpoint()`, then matches `connect_async`: success keeps
the socket; `Error::Http(resp)` returns `StartWebsocketError` with the
response status, headers and (lossily decoded, defaulted-empty) body;
every other error panics. -/
def connectStream (base endpoint : String) (res : ConnectAsyncResult) :
    ConnectOutcome :=
  match res with
  | .okStream => .ok (base ++ endpoint)
  | .httpRejected status headers body =>
    .err { statusCode := status, headers := headers, body := body.getD "" }
  | .otherError _ => .panicked

/-! ### WS-API signer (`src/ws_api/mod.rs` lines 147–184) -/

/-- Byte-lexicographic strict order, the `Ord` used by Rust `String`
keys in a serde_json map. -/
def lexLt : List Nat → List Nat → Bool
  | [], [] => false
  | [], _ :: _ => true
  | _ :: _, [] => false
  | a :: as, b :: bs => a < b || (a == b && lexLt as bs)

/-- Key order used by `Map::sort_keys`. -/
def keyLt (a b : String) : Bool := lexLt (Crypto.strBytes a) (Crypto.strBytes b)

/-- Insert a field into a key-sorted field list. -/
def insertByKey (p : String × Json) : List (String × Json) → List (String × Json)
  | [] => [p]
  | q :: rest => if keyLt q.1 p.1 then q :: insertByKey p rest else p :: q :: rest

/-- `Map::sort_keys`: the field list in ascending key order. -/
def sortByKey : List (String × Json) → List (String × Json)
  | [] => []
  | p :: rest => insertByKey p (sortByKey rest)

/-- The canonical message built by `ws_api::signature` (lines 168–184):
the request re-serialized to a JSON object, keys sorted, then each
`key=value&` pair appended in order — `value` in its JSON rendering and
with a trailing ampersand after every pair. -/
def wsApiSignMessage (req : List (String × Json)) : String :=
  (sortByKey req).foldl (fun acc p => acc ++ p.1 ++ "=" ++ p.2.render ++ "&") ""

/-- `ws_api::signature`: hex HMAC-SHA256 of `wsApiSignMessage` under the
secret. -/
def wsApiSignature (req : List (String × Json)) (apiSecret : String) : String :=
  Crypto.hexify (Crypto.hmacSha256 (Crypto.strBytes apiSecret)
    (Crypto.strBytes (wsApiSignMessage req)))

/-- The REST signer applied to the same JSON-field request value: it
signs the literal serde_qs query string. -/
def restSignatureOf (req : List (String × Json)) (apiSecret : String) : String :=
  restSignature (restEncode req) apiSecret

/-! ### Client configuration (`src/client.rs`) -/

/-- `ClientConfig` (the phantom product marker carries no data). -/
structure ClientConfig where
  restBaseUrl : String
  websocketBaseUrl : String
  wsApiBaseUrl : String
deriving Repr, DecidableEq

/-- `ClientConfig::<Spot>::default`. -/
def ClientConfig.spotDefault : ClientConfig :=
  { restBaseUrl := "https://api.binance.com"
    websocketBaseUrl := "wss://stream.binance.com:9443"
    wsApiBaseUrl := "wss://ws-api.binance.com:443/ws-api/v3" }

/-- `ClientConfig::<Usdm>::default`. -/
def ClientConfig.usdmDefault : ClientConfig :=
  { restBaseUrl := "https://fapi.binance.com"
    websocketBaseUrl := "wss://fstream.binance.com"
    wsApiBaseUrl := "wss://ws-fapi.binance.com/ws-fapi/v1" }

/-- `ClientConfig::<Coinm>::default`. -/
def ClientConfig.coinmDefault : ClientConfig :=
  { restBaseUrl := "https://dapi.binance.com"
    websocketBaseUrl := "wss://dstream.binance.com"
    wsApiBaseUrl := "" }

/-- `ClientConfig::with_rest_base_url` (lines 52–55). -/
def ClientConfig.withRestBaseUrl (c : ClientConfig) (u : String) : ClientConfig :=
  { c with restBaseUrl := u }

/-- `ClientConfig::with_websocket_base_url` (lines 56–59). -/
def ClientConfig.withWebsocketBaseUrl (c : ClientConfig) (u : String) : ClientConfig :=
  { c with websocketBaseUrl := u }

/-- `ClientConfig::with_ws_api_base_url` (lines 60–63). -/
def ClientConfig.withWsApiBaseUrl (c : ClientConfig) (u : String) : ClientConfig :=
  { c with wsApiBaseUrl := u }

/-! ### Sample serde decoder instantiations for concrete runs -/

/-- Accumulate decimal digits; any non-digit character fails. -/
def natFromCharsAux : List Char → Nat → Option Nat
  | [], acc => some acc
  | c :: cs, acc =>
    if 48 ≤ c.toNat && c.toNat ≤ 57 then
      natFromCharsAux cs (acc * 10 + (c.toNat - 48))
    else
      none

/-- A sample `from_str::<R::Response>` instantiation: the response type is
a bare JSON number, so exactly (non-empty) decimal bodies decode. -/
def sampleContentDecode (s : String) : Option Nat :=
  match s.data with
  | [] => none
  | c :: cs => natFromCharsAux (c :: cs) 0

/-- A sample `from_str::<BinanceResponseError>` instantiation, defined on
the error-envelope fixture body used in the claims. -/
def sampleErrDecode (s : String) : Option BinanceResponseError :=
  if s = "\x7b\"code\":-1121,\"msg\":\"Invalid symbol\"\x7d" then
    some { code := -1121, msg := "Invalid symbol" }
  else
    none

end Binance

namespace Binance

/-! ### Small auxiliary definitions used by the concrete statements -/

/-- Does `hay` start with `ndl`? -/
def startsWithList : List Char → List Char → Bool
  | _, [] => true
  | [], _ :: _ => false
  | a :: as, b :: bs => a == b && startsWithList as bs

/-- Does `hay` contain `ndl` as a contiguous sublist? -/
def containsSub : List Char → List Char → Bool
  | [], ndl => ndl.isEmpty
  | a :: rest, ndl => startsWithList (a :: rest) ndl || containsSub rest ndl

/-- Substring test on strings. -/
def strContains (hay ndl : String) : Bool := containsSub hay.data ndl.data

/-- Decidable equality for `Except` results. -/
def exceptDecEq {ε α : Type} [DecidableEq ε] [DecidableEq α] :
    (a b : Except ε α) → Decidable (a = b)
  | .error a, .error b =>
    if h : a = b then .isTrue (by rw [h])
    else .isFalse (by intro he; cases he; exact h rfl)
  | .error _, .ok _ => .isFalse (by intro he; cases he)
  | .ok _, .error _ => .isFalse (by intro he; cases he)
  | .ok a, .ok b =>
    if h : a = b then .isTrue (by rw [h])
    else .isFalse (by intro he; cases he; exact h rfl)

instance {ε α : Type} [DecidableEq ε] [DecidableEq α] : DecidableEq (Except ε α) :=
  exceptDecEq

/-- The error-envelope fixture body from the spec. -/
def sampleErrBody : String := "\x7b\"code\":-1121,\"msg\":\"Invalid symbol\"\x7d"

end Binance

namespace Binance

/-! ### Theorems -/

set_option maxRecDepth 1000000

/-- Known-answer test anchoring the SHA-256 embedding (FIPS 180-2 vector). -/
theorem sha256_kat_abc :
    Crypto.hexify (Crypto.sha256 (Crypto.strBytes "abc")) =
      "ba7816bf8f01cfea414140de5dae2223b00361a396177a9cb410ff61f20015ad" := by
  decide

/-- Known-answer test anchoring the HMAC-SHA256 embedding (RFC 4231 case 1). -/
theorem hmac_kat_rfc4231 :
    Crypto.hexify (Crypto.hmacSha256 (List.replicate 20 11) (Crypto.strBytes "Hi There")) =
      "b0344c61d8db38535ca8afceaf0bf12b881dc200c9833da726e9376c2e32cff7" := by
  decide

/-- C1: for every request and secret, `signed_request` signs exactly the
canonical serde_qs encoding that is transmitted: the URL query string is
that encoding followed by `&signature=h` with
`h = hex(HMAC-SHA256(secret, encoding))`, so the signed bytes are
byte-identical to the query string preceding the signature parameter,
`signature` is the final parameter, and the body is empty. -/
theorem c1_signature_over_transmitted_query (base endpoint : String)
    (req : List (String × String)) (apiKey apiSecret : String)
    (hk : isValidHeaderValue apiKey = true) :
    signedRequest base endpoint req apiKey apiSecret =
      .ok { url := base ++ endpoint ++ "?" ++
              (qsEncode req ++ "&signature=" ++
                Crypto.hexify (Crypto.hmacSha256 (Crypto.strBytes apiSecret)
                  (Crypto.strBytes (qsEncode req))))
            headers := [userAgentHeader, ("x-mbx-apikey", apiKey)]
            body := none } := by
  simp [signedRequest, restSignature, hk]

/-- Witness for C1 at a concrete request, key and secret. -/
theorem c1_signature_over_transmitted_query_witness :
    isValidHeaderValue "apikey" = true ∧
    signedRequest "https://fapi.binance.com" "/fapi/v1/order"
        [("symbol", "BTCUSDT"), ("timestamp", "1700000000000")] "apikey" "abc" =
      .ok { url := "https://fapi.binance.com" ++ "/fapi/v1/order" ++ "?" ++
              (qsEncode [("symbol", "BTCUSDT"), ("timestamp", "1700000000000")] ++
                "&signature=" ++
                Crypto.hexify (Crypto.hmacSha256 (Crypto.strBytes "abc")
                  (Crypto.strBytes
                    (qsEncode [("symbol", "BTCUSDT"), ("timestamp", "1700000000000")]))))
            headers := [userAgentHeader, ("x-mbx-apikey", "apikey")]
            body := none } :=
  ⟨by decide,
   c1_signature_over_transmitted_query "https://fapi.binance.com" "/fapi/v1/order"
     [("symbol", "BTCUSDT"), ("timestamp", "1700000000000")] "apikey" "abc" (by decide)⟩

/-- C2: contrary to the claim, decode failures terminate the process: a
success-status body that is not the success type panics, a failure-status
body that is not the error envelope panics, and an undecodable text frame
panics in `poll_next`. -/
theorem c2_decode_failure_panics :
    handleResponse sampleContentDecode sampleErrDecode
      { status := 200, headers := [], body := some "\x7b\"unexpected\":true\x7d" } =
      (RestOutcome.panicked : RestOutcome Nat) ∧
    handleResponse sampleContentDecode sampleErrDecode
      { status := 400, headers := [], body := some "gateway timeout" } =
      (RestOutcome.panicked : RestOutcome Nat) ∧
    pollNext sampleContentDecode (.item (.text "\x7b\"e\":\"aggTrade\"\x7d")) =
      (PollOutcome.panicked : PollOutcome Nat) := by
  decide

/-- C3 counterexample: a 200 response whose body parses as the error
envelope `(-1121, "Invalid symbol")` is decoded as the success type and
panics — it is not surfaced as a structured API error. -/
theorem c3_success_status_error_envelope_not_api_error :
    sampleErrDecode sampleErrBody = some { code := -1121, msg := "Invalid symbol" } ∧
    handleResponse sampleContentDecode sampleErrDecode
      { status := 200, headers := [], body := some sampleErrBody } =
      (RestOutcome.panicked : RestOutcome Nat) ∧
    handleResponse sampleContentDecode sampleErrDecode
      { status := 200, headers := [], body := some sampleErrBody } ≠
      .err (.binanceResponse 200 [] (some { code := -1121, msg := "Invalid symbol" })) := by
  decide

/-- C3 (amended): only on a failure HTTP status is the body decoded as the
error envelope; the structured error then carries the envelope content
together with the response status and headers. -/
theorem c3_failure_status_error_envelope_api_error {O : Type}
    (decodeO : String → Option O)
    (decodeErr : String → Option BinanceResponseError) (resp : HttpResponse)
    (t : String) (c : BinanceResponseError)
    (hs : isSuccessStatus resp.status = false)
    (hb : resp.body = some t) (hc : decodeErr t = some c) :
    handleResponse decodeO decodeErr resp =
      .err (.binanceResponse resp.status resp.headers (some c)) := by
  simp [handleResponse, hs, hb, hc]

/-- Witness for the amended C3 at a concrete 400 response. -/
theorem c3_failure_status_error_envelope_api_error_witness :
    isSuccessStatus 400 = false ∧
    sampleErrDecode sampleErrBody = some { code := -1121, msg := "Invalid symbol" } ∧
    handleResponse sampleContentDecode sampleErrDecode
      { status := 400, headers := [("retry-after", "1")], body := some sampleErrBody } =
      (RestOutcome.err (.binanceResponse 400 [("retry-after", "1")]
        (some { code := -1121, msg := "Invalid symbol" })) : RestOutcome Nat) :=
  ⟨by decide, by decide,
   c3_failure_status_error_envelope_api_error sampleContentDecode sampleErrDecode
     { status := 400, headers := [("retry-after", "1")], body := some sampleErrBody }
     sampleErrBody { code := -1121, msg := "Invalid symbol" }
     (by decide) (by decide) (by decide)⟩

/-- C4 counterexample: credentials are mandatory arguments, and empty
(unconfigured) credentials do not fail: a keyed request with an empty key
and a signed request with empty key and secret both proceed to the
network call — no `MissingApiKey` / `MissingApiSecret` is ever returned. -/
theorem c4_empty_credentials_proceed :
    keyedRequest "https://fapi.binance.com" "/fapi/v2/account"
        [("symbol", "BTCUSDT")] "" =
      .ok { url := "https://fapi.binance.com/fapi/v2/account?symbol=BTCUSDT"
            headers := [userAgentHeader, ("x-mbx-apikey", "")]
            body := none } ∧
    signedRequest "https://fapi.binance.com" "/fapi/v2/account"
        [("symbol", "BTCUSDT")] "" "" =
      .ok { url := "https://fapi.binance.com/fapi/v2/account?symbol=BTCUSDT&signature=14b1c34ce85e7487910e21aef7fdf7e2c582db1f58554d8f896e568415bee6a3"
            headers := [userAgentHeader, ("x-mbx-apikey", "")]
            body := none } := by
  decide

/-- C4 (amended): the API key and secret are mandatory parameters of
`keyed_request` / `signed_request`; there is no missing-credential state.
The only pre-network credential failure is `InvalidApiKey`, returned when
the key is not a valid HTTP header value, and the error type has no other
configuration variant. -/
theorem c4_invalid_key_only_pre_network_failure (base endpoint : String)
    (req : List (String × String)) (apiKey apiSecret : String)
    (hk : isValidHeaderValue apiKey = false) :
    keyedRequest base endpoint req apiKey = .error .invalidApiKey ∧
    signedRequest base endpoint req apiKey apiSecret = .error .invalidApiKey ∧
    ∀ e : BinanceRequestError, e = .invalidApiKey ∨
      ∃ sc hd c, e = .binanceResponse sc hd c := by
  refine ⟨?_, ?_, ?_⟩
  · simp [keyedRequest, hk]
  · simp [signedRequest, hk]
  · intro e
    cases e with
    | invalidApiKey => exact .inl rfl
    | binanceResponse sc hd c => exact .inr ⟨sc, hd, c, rfl⟩

/-- Witness for the amended C4 with a key containing a control byte. -/
theorem c4_invalid_key_only_pre_network_failure_witness :
    isValidHeaderValue "bad\nkey" = false ∧
    (keyedRequest "https://fapi.binance.com" "/fapi/v2/account"
        [("symbol", "BTCUSDT")] "bad\nkey" = .error .invalidApiKey ∧
      signedRequest "https://fapi.binance.com" "/fapi/v2/account"
        [("symbol", "BTCUSDT")] "bad\nkey" "secret" = .error .invalidApiKey ∧
      ∀ e : BinanceRequestError, e = .invalidApiKey ∨
        ∃ sc hd c, e = .binanceResponse sc hd c) :=
  ⟨by decide,
   c4_invalid_key_only_pre_network_failure "https://fapi.binance.com" "/fapi/v2/account"
     [("symbol", "BTCUSDT")] "bad\nkey" "secret" (by decide)⟩

/-- C5: an HTTP-level rejection of the upgrade is returned as a handshake
error carrying the response status, headers and body — but contrary to
the claim, every other connect-time failure panics instead of returning a
transport error (shown at a refused-connection input). -/
theorem c5_handshake_error_returned_transport_error_panics :
    (∀ (st : Nat) (hd : List (String × String)) (bd : Option String),
      connectStream "wss://fstream.binance.com" "/ws/btcusdt@aggTrade"
          (.httpRejected st hd bd) =
        .err { statusCode := st, headers := hd, body := bd.getD "" }) ∧
    connectStream "wss://fstream.binance.com" "/ws/btcusdt@aggTrade"
        (.httpRejected 429 [("retry-after", "60")] (some "Too Many Requests")) =
      .err { statusCode := 429, headers := [("retry-after", "60")],
             body := "Too Many Requests" } ∧
    connectStream "wss://fstream.binance.com" "/ws/btcusdt@aggTrade"
        (.otherError "tcp connect: connection refused") = .panicked :=
  ⟨fun _ _ _ => rfl, rfl, rfl⟩

/-- C6: control frames are consumed without yielding an event or ending
the sequence, a close frame ends it cleanly, a decodable text frame
yields exactly one event, and the sequence
`[Ping, Text(v1), Pong, Text(v2), Close]` yields exactly the two events
in order and then terminates cleanly. -/
theorem c6_frame_filtering {E : Type} (decode : String → Option E)
    (rest : List InnerPoll) (pl : List Nat) (s1 s2 : String) (e1 e2 : E)
    (h1 : decode s1 = some e1) (h2 : decode s2 = some e2) :
    runStream decode (.item (.ping pl) :: rest) = runStream decode rest ∧
    runStream decode (.item (.pong pl) :: rest) = runStream decode rest ∧
    runStream decode (.item (.binary pl) :: rest) = runStream decode rest ∧
    runStream decode (.item .frameRaw :: rest) = runStream decode rest ∧
    pollNext decode (.item (.ping pl)) = .pending ∧
    runStream decode (.item .close :: rest) = ([], .clean) ∧
    runStream decode (.item (.text s1) :: rest) =
      (e1 :: (runStream decode rest).1, (runStream decode rest).2) ∧
    runStream decode
        [.item (.ping pl), .item (.text s1), .item (.pong pl),
         .item (.text s2), .item .close] =
      ([e1, e2], .clean) := by
  refine ⟨?_, ?_, ?_, ?_, ?_, ?_, ?_, ?_⟩ <;>
    simp [runStream, pollNext, h1, h2]

/-- Witness for C6 with the numeric sample decoder. -/
theorem c6_frame_filtering_witness :
    sampleContentDecode "1" = some 1 ∧
    sampleContentDecode "2" = some 2 ∧
    (runStream sampleContentDecode [.item (.ping [0])] = runStream sampleContentDecode [] ∧
      runStream sampleContentDecode [.item (.pong [0])] = runStream sampleContentDecode [] ∧
      runStream sampleContentDecode [.item (.binary [0])] = runStream sampleContentDecode [] ∧
      runStream sampleContentDecode [.item .frameRaw] = runStream sampleContentDecode [] ∧
      pollNext sampleContentDecode (.item (.ping [0])) = .pending ∧
      runStream sampleContentDecode [.item .close] = ([], .clean) ∧
      runStream sampleContentDecode [.item (.text "1")] =
        (1 :: (runStream sampleContentDecode []).1, (runStream sampleContentDecode []).2) ∧
      runStream sampleContentDecode
          [.item (.ping [0]), .item (.text "1"), .item (.pong [0]),
           .item (.text "2"), .item .close] =
        ([1, 2], .clean)) :=
  ⟨by decide, by decide,
   c6_frame_filtering sampleContentDecode [] [0] "1" "2" 1 2 (by decide) (by decide)⟩

/-- C7 counterexample: a transport error while waiting terminates the
stream with no error information: the run after an error is identical to
the run after a clean close, so the two are indistinguishable. -/
theorem c7_error_termination_indistinguishable :
    runStream sampleContentDecode [.item (.text "1"), .failed] =
      runStream sampleContentDecode [.item (.text "1"), .item .close] ∧
    runStream sampleContentDecode [.item (.text "1"), .failed] = ([1], .clean) ∧
    pollNext sampleContentDecode .failed = (PollOutcome.terminated : PollOutcome Nat) ∧
    pollNext sampleContentDecode (.item .close) =
      (PollOutcome.terminated : PollOutcome Nat) := by
  decide

/-- C7 (amended): a transport error while waiting ends the sequence, and
the error is not yielded as an element — but it is discarded: the stream
reports a plain end (`Ready(None)`), exactly as for a clean close, with
no error information attached. -/
theorem c7_transport_error_silent_end {E : Type} (decode : String → Option E)
    (rest : List InnerPoll) :
    pollNext decode .failed = (PollOutcome.terminated : PollOutcome E) ∧
    runStream decode (.failed :: rest) = ([], Termination.clean) :=
  ⟨rfl, rfl⟩

/-- C8 counterexample: a signed dispatch of a request without timestamp
fields transmits and signs exactly the request's own encoding — the query
contains no `timestamp` and no `recv_window` parameter, so the engine
appends neither. -/
theorem c8_no_timestamp_appended :
    signedRequest "https://fapi.binance.com" "/fapi/v1/order"
        [("symbol", "BTCUSDT")] "apikey" "secret" =
      .ok { url := "https://fapi.binance.com/fapi/v1/order?symbol=BTCUSDT&signature=d312dbdcf67849b63f049d75c36ef9faf2ec9bd835bd9ec589a2fc386640a2f0"
            headers := [userAgentHeader, ("x-mbx-apikey", "apikey")]
            body := none } ∧
    strContains
      "symbol=BTCUSDT&signature=d312dbdcf67849b63f049d75c36ef9faf2ec9bd835bd9ec589a2fc386640a2f0"
      "timestamp" = false ∧
    strContains
      "symbol=BTCUSDT&signature=d312dbdcf67849b63f049d75c36ef9faf2ec9bd835bd9ec589a2fc386640a2f0"
      "recv_window" = false ∧
    strContains
      "symbol=BTCUSDT&signature=d312dbdcf67849b63f049d75c36ef9faf2ec9bd835bd9ec589a2fc386640a2f0"
      "recvWindow" = false := by
  decide

/-- C8 (amended): the engine appends only the `signature` parameter; the
canonical parameter set it signs is exactly the request value's own
serde_qs encoding, so `timestamp` and `recv_window` reach the wire only
as caller-supplied request fields, and no clock is read at dispatch. -/
theorem c8_engine_appends_only_signature (base endpoint : String)
    (req : List (String × String)) (apiKey apiSecret : String)
    (hk : isValidHeaderValue apiKey = true) :
    (signedRequest base endpoint req apiKey apiSecret).map OutboundRequest.url =
      .ok (base ++ endpoint ++ "?" ++
        (qsEncode req ++ "&signature=" ++ restSignature (qsEncode req) apiSecret)) := by
  simp [signedRequest, hk, Except.map]

/-- Witness for the amended C8 at a concrete request. -/
theorem c8_engine_appends_only_signature_witness :
    isValidHeaderValue "apikey" = true ∧
    (signedRequest "https://fapi.binance.com" "/fapi/v1/order"
        [("symbol", "BTCUSDT")] "apikey" "secret").map OutboundRequest.url =
      .ok ("https://fapi.binance.com" ++ "/fapi/v1/order" ++ "?" ++
        (qsEncode [("symbol", "BTCUSDT")] ++ "&signature=" ++
          restSignature (qsEncode [("symbol", "BTCUSDT")]) "secret")) :=
  ⟨by decide,
   c8_engine_appends_only_signature "https://fapi.binance.com" "/fapi/v1/order"
     [("symbol", "BTCUSDT")] "apikey" "secret" (by decide)⟩

/-- C9: the REST signer signs the literal serde_qs query string, while the
WS-API signer signs the key-sorted JSON re-serialization with a trailing
ampersand after every `key=jsonValue` pair; on the one-field request
`symbol=BTCUSDT` the two canonical messages differ (`symbol=BTCUSDT` vs
`symbol="BTCUSDT"&`) and the resulting signatures under the same secret
differ. -/
theorem c9_incompatible_canonicalizations :
    (∀ params secret : String, restSignature params secret =
      Crypto.hexify (Crypto.hmacSha256 (Crypto.strBytes secret)
        (Crypto.strBytes params))) ∧
    (∀ (req : List (String × Json)) (secret : String), wsApiSignature req secret =
      Crypto.hexify (Crypto.hmacSha256 (Crypto.strBytes secret)
        (Crypto.strBytes (wsApiSignMessage req)))) ∧
    wsApiSignMessage
        [("symbol", .str "BTCUSDT"), ("recvWindow", .num 5000),
         ("timestamp", .num 1700000000000)] =
      "recvWindow=5000&symbol=\"BTCUSDT\"&timestamp=1700000000000&" ∧
    restEncode
        [("symbol", .str "BTCUSDT"), ("recvWindow", .num 5000),
         ("timestamp", .num 1700000000000)] =
      "symbol=BTCUSDT&recvWindow=5000&timestamp=1700000000000" ∧
    restEncode [("symbol", .str "BTCUSDT")] = "symbol=BTCUSDT" ∧
    wsApiSignMessage [("symbol", .str "BTCUSDT")] = "symbol=\"BTCUSDT\"&" ∧
    restEncode [("symbol", .str "BTCUSDT")] ≠
      wsApiSignMessage [("symbol", .str "BTCUSDT")] ∧
    restSignatureOf [("symbol", .str "BTCUSDT")] "abc" ≠
      wsApiSignature [("symbol", .str "BTCUSDT")] "abc" := by
  refine ⟨fun _ _ => rfl, fun _ _ => rfl, ?_, ?_, ?_, ?_, ?_, ?_⟩ <;> decide

/-- C10: each configuration builder modifies only its own field and
leaves the other two base URLs unchanged. -/
theorem c10_builders_modify_only_their_field (c : ClientConfig) (u : String) :
    (c.withRestBaseUrl u).restBaseUrl = u ∧
    (c.withRestBaseUrl u).websocketBaseUrl = c.websocketBaseUrl ∧
    (c.withRestBaseUrl u).wsApiBaseUrl = c.wsApiBaseUrl ∧
    (c.withWebsocketBaseUrl u).websocketBaseUrl = u ∧
    (c.withWebsocketBaseUrl u).restBaseUrl = c.restBaseUrl ∧
    (c.withWebsocketBaseUrl u).wsApiBaseUrl = c.wsApiBaseUrl ∧
    (c.withWsApiBaseUrl u).wsApiBaseUrl = u ∧
    (c.withWsApiBaseUrl u).restBaseUrl = c.restBaseUrl ∧
    (c.withWsApiBaseUrl u).websocketBaseUrl = c.websocketBaseUrl :=
  ⟨rfl, rfl, rfl, rfl, rfl, rfl, rfl, rfl, rfl⟩

end Binance
